import Mathlib

/-!
Verification development for the bulk transaction ingestion pipeline of the
reckon-snap personal finance tracker.

Client side (upload component): `parseExcelFile` decodes a spreadsheet into
candidate transactions, `validateTransaction` checks each candidate, and
`processExcelFiles` partitions candidates of all uploaded files into kept
transactions and row errors.  `uploadTransactions` then sends the kept
records to the server.

Server side (Express app): `POST /api/transactions/bulk` re-validates each
record of the request body independently and persists the valid ones one by
one, returning a per-index success/error breakdown.

JavaScript builtins whose semantics live outside the repository (Date
parsing, parseFloat on strings, formatting of non-integer numbers,
toISOString) are collected in an environment structure `JsEnv`; theorems
quantify over the environment, and concrete runs use concrete instances
that agree with the builtins at every value they are applied to.
-/

namespace ReckonSnap

/-- Model of a JavaScript number: NaN or a finite value.  The finite values
appearing in this application are modelled by rationals. -/
inductive JsNum where
  | nan
  | num (q : ℚ)
deriving DecidableEq

/-- Model of a JavaScript / JSON value as it appears in request bodies and
decoded spreadsheet cells.  `jundef` models JavaScript undefined, such as a
missing cell of a sheet row.  JSON numbers are finite, hence carried as
rationals. -/
inductive JValue where
  | jundef
  | jnull
  | jbool (b : Bool)
  | jnum (q : ℚ)
  | jstr (s : String)
deriving DecidableEq

/-- JavaScript truthiness: undefined, null, false, 0 and the empty string
are falsy, every other value is truthy. -/
def truthy : JValue → Bool
  | .jundef => false
  | .jnull => false
  | .jbool b => b
  | .jnum q => q != 0
  | .jstr s => s != ""

/-- JavaScript comparison of a number against a rational bound, as used in
the sources for `x <= 0`: NaN compares false. -/
def JsNum.le : JsNum → ℚ → Bool
  | .nan, _ => false
  | .num q, c => q ≤ c

/-- JavaScript comparison of a number against a rational bound, as used in
the sources for `x < 0`: NaN compares false. -/
def JsNum.lt : JsNum → ℚ → Bool
  | .nan, _ => false
  | .num q, c => q < c

/-- Environment of JavaScript builtins called by the code but implemented
outside the repository.  `dateOkS s` is whether `new Date(s)` yields a valid
date for a string, `dateOkJ v` the same for an arbitrary value,
`parseFloatStr` is `parseFloat` on a string, `numStr` is `String(q)` for a
non-integer number, and `toISO s` is `new Date(s).toISOString()`. -/
structure JsEnv where
  dateOkS : String → Bool
  dateOkJ : JValue → Bool
  parseFloatStr : String → JsNum
  numStr : ℚ → String
  toISO : String → String

/-- JavaScript `String(n)` for a number: NaN prints as NaN, integers print
exactly, other finite values are delegated to the environment. -/
def jsNumToString (env : JsEnv) : JsNum → String
  | .nan => "NaN"
  | .num q => if q.den = 1 then toString q.num else env.numStr q

/-- JavaScript `String(v)` for an arbitrary value. -/
def jsToString (env : JsEnv) : JValue → String
  | .jundef => "undefined"
  | .jnull => "null"
  | .jbool b => if b then "true" else "false"
  | .jnum q => jsNumToString env (.num q)
  | .jstr s => s

/-- JavaScript `parseFloat(v)`: the argument is first converted to a string,
so numbers parse back to themselves and undefined, null and booleans give
NaN; strings are delegated to the environment. -/
def parseFloatJV (env : JsEnv) : JValue → JsNum
  | .jnum q => .num q
  | .jstr s => env.parseFloatStr s
  | _ => .nan

/-- JavaScript `x || 0` applied to a number: NaN (falsy) is replaced by 0;
a zero value is replaced by 0, which is itself. -/
def jsOrZero : JsNum → ℚ
  | .nan => 0
  | .num q => q

/-- JavaScript `s.trim()`: the string without its leading and trailing
whitespace. -/
def jsTrim (s : String) : String :=
  String.mk (((s.data.dropWhile Char.isWhitespace).reverse.dropWhile Char.isWhitespace).reverse)

/-- JavaScript `s.toLowerCase()`: every character lower-cased. -/
def jsToLower (s : String) : String :=
  String.mk (s.data.map Char.toLower)

/-- Candidate transaction produced by the client parser (interface
ExcelTransaction of the upload component).  The amount is a JavaScript
number. -/
structure ExcelTransaction where
  type : String
  amount : JsNum
  category : String
  date : String
  description : String
deriving DecidableEq

/-- Row error recorded by the client batch step: 1-based row position
(with header offset), message, and the original candidate. -/
structure RowError where
  row : Nat
  error : String
  data : ExcelTransaction
deriving DecidableEq

/-- Client-side row validator (function validateTransaction of the upload
component), translated check for check in source order: type, amount,
category, date, description.  Returns the first failing message, or none
when the row is valid.  The row index parameter is accepted but, exactly as
in the source, never used. -/
def validateTransaction (env : JsEnv) (t : ExcelTransaction) (rowIndex : Nat) : Option String :=
  if ¬ (t.type = "income" ∨ t.type = "expense") then
    some ("Invalid type: " ++ t.type ++ ". Must be \x27income\x27 or \x27expense\x27")
  else if t.amount = .nan ∨ t.amount.le 0 then
    some ("Invalid amount: " ++ jsNumToString env t.amount ++ ". Must be a positive number")
  else if t.category = "" ∨ jsTrim t.category = "" then
    some "Category is required"
  else if ¬ env.dateOkS t.date then
    some ("Invalid date format: " ++ t.date)
  else if t.description = "" ∨ jsTrim t.description = "" then
    some "Description is required"
  else
    none

/-- Check 1 of the validator in isolation: transaction type. -/
def checkType (t : ExcelTransaction) : Option String :=
  if ¬ (t.type = "income" ∨ t.type = "expense") then
    some ("Invalid type: " ++ t.type ++ ". Must be \x27income\x27 or \x27expense\x27")
  else none

/-- Check 2 of the validator in isolation: amount must be a number strictly
greater than zero. -/
def checkAmount (env : JsEnv) (t : ExcelTransaction) : Option String :=
  if t.amount = .nan ∨ t.amount.le 0 then
    some ("Invalid amount: " ++ jsNumToString env t.amount ++ ". Must be a positive number")
  else none

/-- Check 3 of the validator in isolation: category must be non-blank. -/
def checkCategory (t : ExcelTransaction) : Option String :=
  if t.category = "" ∨ jsTrim t.category = "" then some "Category is required" else none

/-- Check 4 of the validator in isolation: the date string must parse to a
valid date. -/
def checkDate (env : JsEnv) (t : ExcelTransaction) : Option String :=
  if ¬ env.dateOkS t.date then some ("Invalid date format: " ++ t.date) else none

/-- Check 5 of the validator in isolation: description must be non-blank. -/
def checkDescription (t : ExcelTransaction) : Option String :=
  if t.description = "" ∨ jsTrim t.description = "" then some "Description is required" else none

/-- A decoded sheet: the list of rows, each row a list of cell values
(XLSX.utils.sheet_to_json with header 1). -/
abbrev Sheet := List (List JValue)

/-- Per-row step of the client parser: a row is kept only when it has at
least five cells and its first five cells are all truthy; the kept row is
mapped positionally with type lower-cased, amount coerced with
parseFloat-or-zero, and the other fields converted to text. -/
def parseRow (env : JsEnv) (row : List JValue) : Option ExcelTransaction :=
  if 5 ≤ row.length ∧ truthy (row.getD 0 .jundef) ∧ truthy (row.getD 1 .jundef) ∧
      truthy (row.getD 2 .jundef) ∧ truthy (row.getD 3 .jundef) ∧ truthy (row.getD 4 .jundef) then
    some
      { type := jsToLower (jsToString env (row.getD 0 .jundef))
        amount := .num (jsOrZero (parseFloatJV env (row.getD 1 .jundef)))
        category := jsToString env (row.getD 2 .jundef)
        date := jsToString env (row.getD 3 .jundef)
        description := jsToString env (row.getD 4 .jundef) }
  else none

/-- Client parser (function parseExcelFile of the upload component) applied
to a successfully decoded sheet: the loop starts at index 1, skipping the
header row, and pushes exactly the rows kept by `parseRow`. -/
def parseExcelFile (env : JsEnv) (sheet : Sheet) : List ExcelTransaction :=
  (sheet.drop 1).filterMap (parseRow env)

/-- Validation pass of processExcelFiles over the candidates of one file:
the forEach loop pushes each candidate to the kept list or, with row number
index + 2, to the error list.  `i` is the index of the first candidate of
the list within the file. -/
def splitCandidates (env : JsEnv) : List ExcelTransaction → Nat → List ExcelTransaction × List RowError
  | [], _ => ([], [])
  | t :: ts, i =>
    let rest := splitCandidates env ts (i + 1)
    match validateTransaction env t (i + 2) with
    | some e => (rest.1, { row := i + 2, error := e, data := t } :: rest.2)
    | none => (t :: rest.1, rest.2)

/-- Outcome of reading and decoding one uploaded file: a decoded sheet, or
the XLSX decode failure thrown by the reader of that file. -/
abbrev FileInput := Except String Sheet

/-- The partitioned batch result held in the processedData state of the
upload component. -/
structure ProcessedData where
  success : List ExcelTransaction
  errors : List RowError
deriving DecidableEq

/-- File loop of processExcelFiles: files are processed in order,
accumulating one running partition; a decode failure of any file throws out
of the loop and is caught by the surrounding try, leaving processedData
unset (`none`): no partial result is produced. -/
def processFiles (env : JsEnv) : List FileInput → ProcessedData → Option ProcessedData
  | [], acc => some acc
  | .error _ :: _, _ => none
  | .ok sheet :: rest, acc =>
    let p := splitCandidates env (parseExcelFile env sheet) 0
    processFiles env rest { success := acc.success ++ p.1, errors := acc.errors ++ p.2 }

/-- Client batch operation (function processExcelFiles of the upload
component): with no uploaded files it returns early and processedData stays
unset; otherwise it runs the file loop on an empty accumulator. -/
def processExcelFiles (env : JsEnv) (files : List FileInput) : Option ProcessedData :=
  if files.isEmpty then none else processFiles env files { success := [], errors := [] }

/-- One HTTP request issued by the client upload step (function
uploadTransactions of the upload component): the url and the serialized
record, whose date field is replaced by its ISO string. -/
structure UploadRequest where
  url : String
  body : ExcelTransaction
deriving DecidableEq

/-- Requests issued by uploadTransactions: one POST per accepted record, all
to the single-record endpoint. -/
def uploadRequests (env : JsEnv) (accepted : List ExcelTransaction) : List UploadRequest :=
  accepted.map (fun t =>
    { url := "http://localhost:3001/api/transactions"
      body := { t with date := env.toISO t.date } })

/-- Count accumulation of uploadTransactions: `httpOk i` is whether the
fetch of the record at position `i` returned ok (a thrown fetch counts as
not ok, both increment errorCount).  Returns (successCount, errorCount). -/
def uploadCounts (httpOk : Nat → Bool) : List ExcelTransaction → Nat → Nat × Nat
  | [], _ => (0, 0)
  | _ :: ts, i =>
    let rest := uploadCounts httpOk ts (i + 1)
    if httpOk i then (rest.1 + 1, rest.2) else (rest.1, rest.2 + 1)

/-- One element of the transactions array of a bulk request, as an object
whose properties may each be absent (undefined) or hold any JSON value.
Non-object array elements also produce exactly one error entry in the
source (the property access throws into the per-record catch) and are not
needed by any claim, so the model covers object elements. -/
structure WireRecord where
  type : Option JValue
  amount : Option JValue
  category : Option JValue
  date : Option JValue
  description : Option JValue
deriving DecidableEq

/-- Truthiness of a possibly absent object property (an absent property
reads as undefined, which is falsy). -/
def truthyOpt : Option JValue → Bool
  | none => false
  | some v => truthy v

/-- JavaScript `parseFloat` applied to a possibly absent property. -/
def parseFloatOpt (env : JsEnv) : Option JValue → JsNum
  | none => .nan
  | some v => parseFloatJV env v

/-- Validity of `new Date(x)` for a possibly absent property: an absent
property gives an invalid date. -/
def dateOkOpt (env : JsEnv) : Option JValue → Bool
  | none => false
  | some v => env.dateOkJ v

/-- The source compares `transactionData.description.length > 200`: only a
string has a numeric length property, for every other value the comparison
is against undefined and is false. -/
def descTooLong : Option JValue → Bool
  | some (.jstr s) => 200 < s.length
  | _ => false

/-- Server-side per-record validation of the bulk endpoint, translated
check for check in source order: required-fields truthiness, strict string
equality of the type, parseFloat of the amount with rejection of NaN and
negatives, date validity, and description length.  Returns the first
failing message, or none. -/
def validateBulkRecord (env : JsEnv) (t : WireRecord) : Option String :=
  if ¬ (truthyOpt t.type ∧ truthyOpt t.amount ∧ truthyOpt t.category ∧
      truthyOpt t.date ∧ truthyOpt t.description) then
    some "Missing required fields"
  else if ¬ (t.type = some (.jstr "income") ∨ t.type = some (.jstr "expense")) then
    some "Invalid type. Must be \"income\" or \"expense\""
  else if parseFloatOpt env t.amount = .nan ∨ (parseFloatOpt env t.amount).lt 0 then
    some "Invalid amount. Must be a positive number"
  else if ¬ dateOkOpt env t.date then
    some "Invalid date format"
  else if descTooLong t.description then
    some "Description must not exceed 200 characters"
  else
    none

/-- A record as stored by the persistence layer, with its assigned
identifier.  No claim inspects the stored document beyond its being
returned, so only the identifier is carried. -/
structure SavedTx where
  id : Nat
deriving DecidableEq

/-- Entry of results.success of the bulk endpoint. -/
structure SuccessEntry where
  index : Nat
  transaction : SavedTx
deriving DecidableEq

/-- Entry of results.errors of the bulk endpoint. -/
structure ErrorEntry where
  index : Nat
  error : String
  data : WireRecord
deriving DecidableEq

/-- The results object accumulated by the bulk endpoint. -/
structure BulkResults where
  success : List SuccessEntry
  errors : List ErrorEntry
deriving DecidableEq

/-- Per-record loop of the bulk endpoint: each record is validated and, if
valid, persisted; `persist i` is the outcome of the save of record `i`
(the persistence layer is an external collaborator, so its outcomes are a
parameter).  A validation failure and a caught save failure each push one
error entry; a save success pushes one success entry.  `i` is the index of
the first record of the list. -/
def processBulk (env : JsEnv) (persist : Nat → Except String SavedTx) :
    List WireRecord → Nat → BulkResults
  | [], _ => { success := [], errors := [] }
  | t :: ts, i =>
    let rest := processBulk env persist ts (i + 1)
    match validateBulkRecord env t with
    | some e => { success := rest.success, errors := { index := i, error := e, data := t } :: rest.errors }
    | none =>
      match persist i with
      | .ok s => { success := { index := i, transaction := s } :: rest.success, errors := rest.errors }
      | .error m => { success := rest.success, errors := { index := i, error := m, data := t } :: rest.errors }

/-- Response of the bulk endpoint, tagged by the branch that produced it. -/
inductive BulkResponse where
  | ok (message : String) (successCount errorCount : Nat) (results : BulkResults)
  | badRequest (error : String)
  | serverError (error : String)
deriving DecidableEq

/-- The HTTP status attached to each response branch in the source. -/
def BulkResponse.status : BulkResponse → Nat
  | .ok _ _ _ _ => 200
  | .badRequest _ => 400
  | .serverError _ => 500

/-- The transactions field of a bulk request body.  `absent` and `nullv`
are the values on which reading `.length` throws; every other non-array
value reads a harmless length and falls through to the array guard. -/
inductive TxField where
  | absent
  | nullv
  | notArray
  | array (ts : List WireRecord)
deriving DecidableEq

/-- Handler of POST /api/transactions/bulk.  The source logs
`transactions.length` before the array guard, so a missing or null
transactions field throws a TypeError that the outer catch turns into the
500 response; a present non-array or empty array hits the guard and gets
the 400 response; a non-empty array is processed record by record and
always answered with status 200 and the breakdown. -/
def bulkHandler (env : JsEnv) (persist : Nat → Except String SavedTx) : TxField → BulkResponse
  | .absent => .serverError "Error processing bulk transactions"
  | .nullv => .serverError "Error processing bulk transactions"
  | .notArray => .badRequest "Transactions array is required and cannot be empty"
  | .array ts =>
    if ts.length = 0 then
      .badRequest "Transactions array is required and cannot be empty"
    else
      let results := processBulk env persist ts 0
      .ok ("Bulk upload completed: " ++ toString results.success.length ++ " successful, " ++
            toString results.errors.length ++ " errors")
        results.success.length results.errors.length results

/-- Concrete environment used by concrete runs below.  Every date string it
is applied to below is a valid date (dateOk true), parseFloat is applied
only to strings with no leading numeric prefix (NaN), no non-integer number
is formatted, and toISO appends the midnight UTC suffix exactly as
Date.toISOString does on a plain yyyy-mm-dd date string. -/
def envC : JsEnv :=
  { dateOkS := fun _ => true
    dateOkJ := fun _ => true
    parseFloatStr := fun _ => .nan
    numStr := fun _ => ""
    toISO := fun s => s ++ "T00:00:00.000Z" }

/-- Concrete persistence oracle used by concrete runs below: every save
succeeds and assigns the index as identifier. -/
def persistC : Nat → Except String SavedTx := fun i => .ok { id := i }

/-! Helper lemmas about the bulk endpoint loop. -/

/-- Each record of the loop contributes exactly one entry, so the two lists
of entries together have one entry per record. -/
theorem processBulk_total_length (env : JsEnv) (persist : Nat → Except String SavedTx)
    (ts : List WireRecord) (i : Nat) :
    (processBulk env persist ts i).success.length + (processBulk env persist ts i).errors.length
      = ts.length := by
  induction ts generalizing i with
  | nil => rfl
  | cons t ts ih =>
    cases hv : validateBulkRecord env t with
    | some e =>
      simp only [processBulk, hv, List.length_cons]
      have := ih (i + 1)
      omega
    | none =>
      cases hp : persist i with
      | ok s =>
        simp only [processBulk, hv, hp, List.length_cons]
        have := ih (i + 1)
        omega
      | error m =>
        simp only [processBulk, hv, hp, List.length_cons]
        have := ih (i + 1)
        omega

/-- The indexes recorded across the success and error entries of the loop
started at `i` are a permutation of the `ts.length` consecutive indexes
from `i`: every record contributes its own index exactly once. -/
theorem processBulk_indexes_perm (env : JsEnv) (persist : Nat → Except String SavedTx)
    (ts : List WireRecord) (i : Nat) :
    ((processBulk env persist ts i).success.map SuccessEntry.index ++
      (processBulk env persist ts i).errors.map ErrorEntry.index).Perm
      (List.range' i ts.length) := by
  induction ts generalizing i with
  | nil => simp [processBulk]
  | cons t ts ih =>
    have hr : List.range' i (t :: ts).length = i :: List.range' (i + 1) ts.length := rfl
    rw [hr]
    cases hv : validateBulkRecord env t with
    | some e =>
      simp only [processBulk, hv, List.map_cons]
      exact List.perm_middle.trans ((ih (i + 1)).cons i)
    | none =>
      cases hp : persist i with
      | ok s =>
        simp only [processBulk, hv, hp, List.map_cons, List.cons_append]
        exact (ih (i + 1)).cons i
      | error m =>
        simp only [processBulk, hv, hp, List.map_cons]
        exact List.perm_middle.trans ((ih (i + 1)).cons i)

/-- C1: for a bulk request whose transactions array is non-empty with N
records, the endpoint answers 200 with the breakdown of the per-record
loop, successCount + errorCount equals N, the indexes across success and
error entries are exactly the positions 0..N-1 (each record contributes
exactly one entry), every error index is a valid position below N, and this
holds for every persistence outcome, so no individual validation or
persistence failure fails the request as a whole. -/
theorem bulk_nonempty_partitions_and_200 (env : JsEnv)
    (persist : Nat → Except String SavedTx) (ts : List WireRecord) (h : ts ≠ []) :
    (bulkHandler env persist (.array ts)).status = 200 ∧
    bulkHandler env persist (.array ts) =
      .ok ("Bulk upload completed: " ++ toString (processBulk env persist ts 0).success.length ++
            " successful, " ++ toString (processBulk env persist ts 0).errors.length ++ " errors")
        (processBulk env persist ts 0).success.length
        (processBulk env persist ts 0).errors.length
        (processBulk env persist ts 0) ∧
    (processBulk env persist ts 0).success.length + (processBulk env persist ts 0).errors.length
      = ts.length ∧
    ((processBulk env persist ts 0).success.map SuccessEntry.index ++
      (processBulk env persist ts 0).errors.map ErrorEntry.index).Perm (List.range ts.length) ∧
    (∀ e ∈ (processBulk env persist ts 0).errors, e.index < ts.length) := by
  have hlen : ts.length ≠ 0 := fun hz => h (List.eq_nil_of_length_eq_zero hz)
  have hperm := processBulk_indexes_perm env persist ts 0
  rw [← List.range_eq_range'] at hperm
  refine ⟨?_, ?_, processBulk_total_length env persist ts 0, hperm, ?_⟩
  · simp [bulkHandler, hlen, BulkResponse.status]
  · simp [bulkHandler, hlen]
  · intro e he
    have hmem : e.index ∈ (processBulk env persist ts 0).success.map SuccessEntry.index ++
        (processBulk env persist ts 0).errors.map ErrorEntry.index :=
      List.mem_append_right _ (List.mem_map_of_mem ErrorEntry.index he)
    have := hperm.mem_iff.mp hmem
    exact List.mem_range.mp this

/-- Concrete valid wire record used by the C1 witness. -/
def recC1 : WireRecord :=
  { type := some (.jstr "income")
    amount := some (.jnum 5)
    category := some (.jstr "Salary")
    date := some (.jstr "2024-01-15")
    description := some (.jstr "pay") }

/-- Witness for C1 at a concrete one-record request with every save
succeeding. -/
theorem bulk_nonempty_partitions_and_200_witness :
    (bulkHandler envC persistC (.array [recC1])).status = 200 ∧
    bulkHandler envC persistC (.array [recC1]) =
      .ok ("Bulk upload completed: " ++
            toString (processBulk envC persistC [recC1] 0).success.length ++
            " successful, " ++ toString (processBulk envC persistC [recC1] 0).errors.length ++
            " errors")
        (processBulk envC persistC [recC1] 0).success.length
        (processBulk envC persistC [recC1] 0).errors.length
        (processBulk envC persistC [recC1] 0) ∧
    (processBulk envC persistC [recC1] 0).success.length +
      (processBulk envC persistC [recC1] 0).errors.length = [recC1].length ∧
    ((processBulk envC persistC [recC1] 0).success.map SuccessEntry.index ++
      (processBulk envC persistC [recC1] 0).errors.map ErrorEntry.index).Perm
      (List.range [recC1].length) ∧
    (∀ e ∈ (processBulk envC persistC [recC1] 0).errors, e.index < [recC1].length) :=
  bulk_nonempty_partitions_and_200 envC persistC [recC1] (by simp)

/-- C3 (evaluation): for an empty transactions array the endpoint answers
exactly 400 with the required-and-nonempty message; for a missing
transactions field the debug log reads transactions.length before the
guard, throws, and the endpoint instead answers 500 with the generic
processing error, contradicting the claimed 400. -/
theorem bulk_missing_field_500_empty_400 :
    bulkHandler envC persistC (.array []) =
      .badRequest "Transactions array is required and cannot be empty" ∧
    (bulkHandler envC persistC (.array [])).status = 400 ∧
    bulkHandler envC persistC .absent = .serverError "Error processing bulk transactions" ∧
    (bulkHandler envC persistC .absent).status = 500 := by
  refine ⟨rfl, rfl, rfl, rfl⟩

/-- Concrete wire record whose amount is the number 0 and whose other
fields are all valid, used against C2. -/
def recAmountZero : WireRecord :=
  { type := some (.jstr "income")
    amount := some (.jnum 0)
    category := some (.jstr "Salary")
    date := some (.jstr "2024-01-15")
    description := some (.jstr "pay") }

/-- Counterexample to C2: a record whose amount equals the number 0 and
whose other fields are valid is not accepted by the server-side
re-validation; the truthiness-based required-fields check rejects it with
Missing required fields before the amount rule is reached. -/
theorem bulk_amount_zero_not_accepted :
    validateBulkRecord envC recAmountZero = some "Missing required fields" ∧
    validateBulkRecord envC recAmountZero ≠ none := by
  refine ⟨rfl, by decide⟩

/-- C2 as amended: for every record whose amount field is the number 0 the
server rejects it as Missing required fields (the truthiness check runs
first), even though the parsed-amount rule itself would not reject a parsed
amount of 0: that rule rejects only NaN or negative parsed amounts, i.e.
requires only a coerced finite number greater than or equal to 0, diverging
from the client-side strictly-positive rule. -/
theorem bulk_amount_zero_rejected_as_missing (env : JsEnv) (r : WireRecord)
    (h : r.amount = some (.jnum 0)) :
    validateBulkRecord env r = some "Missing required fields" ∧
    parseFloatOpt env r.amount = .num 0 ∧
    ¬ (parseFloatOpt env r.amount = .nan ∨ (parseFloatOpt env r.amount).lt 0) := by
  have htr : truthyOpt r.amount = false := by
    rw [h]; rfl
  refine ⟨?_, ?_, ?_⟩
  · unfold validateBulkRecord
    rw [if_pos]
    intro hall
    rw [htr] at hall
    exact Bool.false_ne_true hall.2.1
  · rw [h]; rfl
  · rw [h]
    show ¬ (JsNum.num 0 = .nan ∨ (JsNum.num 0).lt (0 : ℚ))
    decide

/-- Witness for the amended C2 at the concrete zero-amount record. -/
theorem bulk_amount_zero_rejected_as_missing_witness :
    validateBulkRecord envC recAmountZero = some "Missing required fields" ∧
    parseFloatOpt envC recAmountZero.amount = .num 0 ∧
    ¬ (parseFloatOpt envC recAmountZero.amount = .nan ∨
        (parseFloatOpt envC recAmountZero.amount).lt 0) :=
  bulk_amount_zero_rejected_as_missing envC recAmountZero rfl

/-- C4: whenever some uploaded file of the batch fails to decode as tabular
data, the whole client batch operation produces no partitioned result at
all: rows parsed and validated from the other files of the same invocation
are not kept. -/
theorem batch_fails_entirely_on_parse_failure (env : JsEnv) (files : List FileInput)
    (m : String) (h : Except.error m ∈ files) :
    processExcelFiles env files = none := by
  have hne : files ≠ [] := by
    intro hz
    rw [hz] at h
    exact List.not_mem_nil _ h
  have key : ∀ (fs : List FileInput) (acc : ProcessedData),
      Except.error m ∈ fs → processFiles env fs acc = none := by
    intro fs
    induction fs with
    | nil => intro acc hmem; exact absurd hmem (List.not_mem_nil _)
    | cons f fs ih =>
      intro acc hmem
      cases f with
      | error e => rfl
      | ok sheet =>
        have : Except.error m ∈ fs := by
          rcases List.mem_cons.mp hmem with hv | hv
          · exact absurd hv (by simp)
          · exact hv
        exact ih _ this
  unfold processExcelFiles
  rw [if_neg (by simpa using hne)]
  exact key files _ h

/-- Witness for C4: a two-file batch where the second file fails to decode
produces no result, although the first file holds a fully valid row. -/
theorem batch_fails_entirely_on_parse_failure_witness :
    processExcelFiles envC
      [Except.ok [[JValue.jstr "Type", .jstr "Amount", .jstr "Category", .jstr "Date",
          .jstr "Description"],
        [JValue.jstr "income", .jnum 1200, .jstr "Salary", .jstr "2024-01-01",
          .jstr "Freelance Payment"]],
       Except.error "corrupt binary"] = none :=
  batch_fails_entirely_on_parse_failure envC _ "corrupt binary" (by simp)

/-- A description of exactly 201 characters. -/
def desc201 : String := String.mk (List.replicate 201 'a')

/-- Concrete candidate whose description has 201 characters and whose other
fields are all valid. -/
def cand201 : ExcelTransaction :=
  { type := "income", amount := .num 5, category := "Food", date := "2024-01-15"
    description := desc201 }

/-- Wire form of the same candidate. -/
def rec201 : WireRecord :=
  { type := some (.jstr "income")
    amount := some (.jnum 5)
    category := some (.jstr "Food")
    date := some (.jstr "2024-01-15")
    description := some (.jstr desc201) }

set_option maxRecDepth 8192 in
/-- Counterexample to C5: a candidate whose description has 201 characters
and whose other fields are valid is accepted by the client-side row
validator (which has no length check), while the same record is rejected by
the bulk endpoint re-validation; the claim that both reject it is false. -/
theorem client_accepts_201_char_description :
    validateTransaction envC cand201 2 = none ∧
    validateBulkRecord envC rec201 = some "Description must not exceed 200 characters" := by
  constructor
  · decide
  · decide

/-- C5 as amended: the 200-character description limit is enforced only by
the bulk endpoint, which rejects a longer description with the stated
message and accepts one of up to 200 characters; the client-side row
validator imposes no length limit and accepts every candidate with a
non-blank description once its other fields are valid. -/
theorem description_limit_server_only (env : JsEnv) (s d : String)
    (hs : jsTrim s ≠ "") (hd0 : d ≠ "") (hdS : env.dateOkS d = true)
    (hdJ : env.dateOkJ (.jstr d) = true) :
    validateTransaction env
      { type := "income", amount := .num 5, category := "Food", date := d, description := s }
      2 = none ∧
    validateBulkRecord env
      { type := some (.jstr "income"), amount := some (.jnum 5),
        category := some (.jstr "Food"), date := some (.jstr d),
        description := some (.jstr s) } =
      (if 200 < s.length then some "Description must not exceed 200 characters" else none) := by
  have hsne : s ≠ "" := by
    intro hz
    exact hs (by rw [hz]; rfl)
  constructor
  · simp +decide [validateTransaction, hdS, hs, hsne]
  · simp +decide [validateBulkRecord, truthyOpt, truthy, parseFloatOpt, parseFloatJV,
      JsNum.lt, dateOkOpt, hdJ, hsne, hd0, descTooLong]

/-- Witness for the amended C5 at the 201-character description. -/
theorem description_limit_server_only_witness :
    validateTransaction envC
      { type := "income", amount := .num 5, category := "Food", date := "2024-01-15",
        description := desc201 } 2 = none ∧
    validateBulkRecord envC
      { type := some (.jstr "income"), amount := some (.jnum 5),
        category := some (.jstr "Food"), date := some (.jstr "2024-01-15"),
        description := some (.jstr desc201) } =
      (if 200 < desc201.length then some "Description must not exceed 200 characters"
        else none) :=
  description_limit_server_only envC desc201 "2024-01-15" (by decide) (by decide) rfl rfl

/-- C6: the client-side row validator is a total function that applies its
five checks in the fixed order type, amount, category, date, description
and reports exactly the first failing check, and the batch step it feeds
sends each candidate wholly to exactly one side: the candidate itself (not
a partially filled record) into the kept list when the result is none, or
one row error carrying the message and the original candidate otherwise. -/
theorem validate_first_failure_wins (env : JsEnv) (t : ExcelTransaction) (i : Nat) :
    validateTransaction env t i =
      List.findSome? id
        [checkType t, checkAmount env t, checkCategory t, checkDate env t,
          checkDescription t] ∧
    splitCandidates env [t] i =
      (validateTransaction env t i).elim (([t], []) : List ExcelTransaction × List RowError)
        (fun e => ([], [{ row := i + 2, error := e, data := t }])) := by
  constructor
  · by_cases h1 : t.type = "income" ∨ t.type = "expense" <;>
    by_cases h2 : t.amount = .nan ∨ t.amount.le (0 : ℚ) <;>
    by_cases h3 : t.category = "" ∨ jsTrim t.category = "" <;>
    by_cases h4 : env.dateOkS t.date = true <;>
    by_cases h5 : t.description = "" ∨ jsTrim t.description = "" <;>
    simp [validateTransaction, checkType, checkAmount, checkCategory, checkDate,
      checkDescription, h1, h2, h3, h4, h5]
  · have hirr : validateTransaction env t (i + 2) = validateTransaction env t i := rfl
    cases h : validateTransaction env t i <;>
      simp [splitCandidates, hirr, h]

/-- C7: the client parser skips the header row and applies `parseRow` to
every remaining row, and `parseRow` keeps a row exactly when it has at
least five cells whose first five are all truthy (populated), mapping it
positionally to type (lower-cased), amount (parseFloat, with coercion
failure yielding 0), category, date and description as text; every other
row yields nothing, so it is silently dropped and can appear in no error
list. -/
theorem parser_keeps_exactly_rows_with_five_cells (env : JsEnv) (sheet : Sheet)
    (row : List JValue) :
    parseExcelFile env sheet = (sheet.drop 1).filterMap (parseRow env) ∧
    parseRow env row =
      (if 5 ≤ row.length ∧ (∀ k ∈ List.range 5, truthy (row.getD k .jundef) = true) then
        some
          { type := jsToLower (jsToString env (row.getD 0 .jundef))
            amount := .num (jsOrZero (parseFloatJV env (row.getD 1 .jundef)))
            category := jsToString env (row.getD 2 .jundef)
            date := jsToString env (row.getD 3 .jundef)
            description := jsToString env (row.getD 4 .jundef) }
      else none) := by
  refine ⟨rfl, ?_⟩
  have hiff : (5 ≤ row.length ∧ truthy (row.getD 0 .jundef) ∧ truthy (row.getD 1 .jundef) ∧
      truthy (row.getD 2 .jundef) ∧ truthy (row.getD 3 .jundef) ∧ truthy (row.getD 4 .jundef))
      ↔ (5 ≤ row.length ∧ ∀ k ∈ List.range 5, truthy (row.getD k .jundef) = true) := by
    constructor
    · rintro ⟨hl, h0, h1, h2, h3, h4⟩
      refine ⟨hl, ?_⟩
      intro k hk
      have hk5 : k < 5 := List.mem_range.mp hk
      interval_cases k <;> assumption
    · rintro ⟨hl, h⟩
      exact ⟨hl, h 0 (by decide), h 1 (by decide), h 2 (by decide),
        h 3 (by decide), h 4 (by decide)⟩
  rw [parseRow, if_congr hiff rfl rfl]

/-- Concrete sheet whose first data row is short (a single cell, dropped by
the parser) and whose second data row carries an invalid type. -/
def sheetC8 : Sheet :=
  [[.jstr "Type", .jstr "Amount", .jstr "Category", .jstr "Date", .jstr "Description"],
   [.jstr "x"],
   [.jstr "foo", .jnum 5, .jstr "Food", .jstr "2024-01-15", .jstr "lunch"]]

/-- The candidate parsed from the failing data row of `sheetC8`. -/
def candC8 : ExcelTransaction :=
  { type := "foo", amount := .num 5, category := "Food", date := "2024-01-15"
    description := "lunch" }

/-- Counterexample to C8: in `sheetC8` the failing data row sits at
0-indexed data position 1 (its predecessor, a short row, is silently
dropped), so the claim predicts reported row 1 + 2 = 3; the produced
RowError instead reports row 2, because the source numbers errors by the
position of the candidate in the parsed candidate sequence, not by the
data row position in the file. -/
theorem rowerror_position_skewed_by_dropped_row :
    (sheetC8.drop 1)[1]? =
      some [.jstr "foo", .jnum 5, .jstr "Food", .jstr "2024-01-15", .jstr "lunch"] ∧
    parseRow envC [.jstr "foo", .jnum 5, .jstr "Food", .jstr "2024-01-15", .jstr "lunch"] =
      some candC8 ∧
    (splitCandidates envC (parseExcelFile envC sheetC8) 0).2 =
      [{ row := 2, error := "Invalid type: foo. Must be \x27income\x27 or \x27expense\x27",
         data := candC8 }] ∧
    (2 : Nat) ≠ 1 + 2 := by
  refine ⟨rfl, by decide, by decide, by decide⟩

/-- C8 as amended: for every candidate at 0-indexed position c of the
parsed candidate sequence of a file whose validation fails, the produced
RowError reports row position c + 2 together with the original candidate
data; c equals the 0-indexed data row position only when no earlier data
row of the file was dropped by the parser. -/
theorem rowerror_reports_candidate_index_plus_two (env : JsEnv)
    (ts : List ExcelTransaction) (c : Nat) (t : ExcelTransaction) (e : String)
    (hc : ts[c]? = some t) (he : validateTransaction env t (c + 2) = some e) :
    ({ row := c + 2, error := e, data := t } : RowError) ∈ (splitCandidates env ts 0).2 := by
  have key : ∀ (ts : List ExcelTransaction) (c i : Nat) (t : ExcelTransaction) (e : String),
      ts[c]? = some t → validateTransaction env t 0 = some e →
      ({ row := i + c + 2, error := e, data := t } : RowError) ∈ (splitCandidates env ts i).2 := by
    intro ts
    induction ts with
    | nil =>
      intro c i t e hc _
      simp at hc
    | cons t0 ts ih =>
      intro c i t e hc he
      cases c with
      | zero =>
        have ht : t0 = t := by simpa using hc
        subst ht
        have h0 : validateTransaction env t0 (i + 2) = some e := he
        simp only [splitCandidates, h0]
        simp [Nat.add_zero]
      | succ c =>
        have hc2 : ts[c]? = some t := by simpa using hc
        have hmem := ih c (i + 1) t e hc2 he
        have harith : i + (c + 1) + 2 = i + 1 + c + 2 := by omega
        rw [harith]
        cases hv : validateTransaction env t0 (i + 2) with
        | some e0 =>
          simp only [splitCandidates, hv]
          exact List.mem_cons_of_mem _ hmem
        | none =>
          simp only [splitCandidates, hv]
          exact hmem
  have := key ts c 0 t e hc he
  simpa using this

/-- Witness for the amended C8 at a concrete one-candidate file. -/
theorem rowerror_reports_candidate_index_plus_two_witness :
    ({ row := 0 + 2, error := "Invalid type: foo. Must be \x27income\x27 or \x27expense\x27",
       data := candC8 } : RowError) ∈ (splitCandidates envC [candC8] 0).2 :=
  rowerror_reports_candidate_index_plus_two envC [candC8] 0 candC8 _ rfl (by decide)

/-- Two accepted concrete records for the upload step. -/
def txC9a : ExcelTransaction :=
  { type := "income", amount := .num 5, category := "Salary", date := "2024-01-15"
    description := "pay" }

/-- Second accepted concrete record for the upload step. -/
def txC9b : ExcelTransaction :=
  { type := "expense", amount := .num 3, category := "Food", date := "2024-01-16"
    description := "lunch" }

/-- Counterexample to C9: uploading two accepted records issues two HTTP
requests, each to the single-record endpoint POST /api/transactions, not
one request to the bulk endpoint POST /api/transactions/bulk. -/
theorem upload_sends_individual_posts_not_bulk :
    uploadRequests envC [txC9a, txC9b] =
      [{ url := "http://localhost:3001/api/transactions",
         body := { type := "income", amount := .num 5, category := "Salary",
                   date := "2024-01-15T00:00:00.000Z", description := "pay" } },
       { url := "http://localhost:3001/api/transactions",
         body := { type := "expense", amount := .num 3, category := "Food",
                   date := "2024-01-16T00:00:00.000Z", description := "lunch" } }] ∧
    (uploadRequests envC [txC9a, txC9b]).length = 2 ∧
    "http://localhost:3001/api/transactions" ≠ "http://localhost:3001/api/transactions/bulk" := by
  refine ⟨rfl, rfl, by decide⟩

/-- Helper: each request of the upload loop gets exactly one outcome, so
the tallied success and error counts sum to the number of records sent. -/
theorem uploadCounts_total (httpOk : Nat → Bool) (ts : List ExcelTransaction) (i : Nat) :
    (uploadCounts httpOk ts i).1 + (uploadCounts httpOk ts i).2 = ts.length := by
  induction ts generalizing i with
  | nil => rfl
  | cons t ts ih =>
    by_cases h : httpOk i = true <;>
      simp only [uploadCounts, h, if_true, if_false, Bool.false_eq_true, List.length_cons] <;>
      · have := ih (i + 1)
        omega

/-- C9 as amended: the upload step sends one POST /api/transactions request
per accepted record (the single-record endpoint, with the date converted to
its ISO string), not a single request to the bulk endpoint, and the
success/error counts surfaced to the operator are client-side tallies of
the per-request outcomes, summing to the number of accepted records. -/
theorem upload_posts_each_record_individually (env : JsEnv) (httpOk : Nat → Bool)
    (accepted : List ExcelTransaction) :
    (uploadRequests env accepted).map UploadRequest.url =
      List.replicate accepted.length "http://localhost:3001/api/transactions" ∧
    (uploadRequests env accepted).map UploadRequest.body =
      accepted.map (fun t => { t with date := env.toISO t.date }) ∧
    (uploadCounts httpOk accepted 0).1 + (uploadCounts httpOk accepted 0).2
      = accepted.length := by
  refine ⟨?_, ?_, uploadCounts_total httpOk accepted 0⟩
  · simp [uploadRequests, List.map_map, Function.comp_def, List.map_const']
  · rw [uploadRequests, List.map_map]
    rfl

/-- Concrete sheet row whose amount cell is the non-coercible string abc. -/
def rowC10 : List JValue :=
  [.jstr "foo", .jstr "abc", .jstr "Food", .jstr "2024-01-15", .jstr "x"]

/-- The candidate the parser emits for `rowC10`: the amount has been
substituted by 0. -/
def candC10 : ExcelTransaction :=
  { type := "foo", amount := .num 0, category := "Food", date := "2024-01-15"
    description := "x" }

/-- Counterexample to C10: the candidate emitted for `rowC10` has a
non-coercible amount cell, so its amount is substituted by 0, but the
validator rejects it with the type error, not with the claimed message
Invalid amount: 0. Must be a positive number, because the type check runs
first. -/
theorem noncoercible_amount_rejected_with_type_error :
    parseFloatJV envC (.jstr "abc") = .nan ∧
    parseRow envC rowC10 = some candC10 ∧
    validateTransaction envC candC10 2 =
      some "Invalid type: foo. Must be \x27income\x27 or \x27expense\x27" ∧
    validateTransaction envC candC10 2 ≠
      some "Invalid amount: 0. Must be a positive number" := by
  refine ⟨rfl, by decide, by decide, by decide⟩

/-- C10 as amended: a non-coercible amount cell is substituted by 0 in the
emitted candidate, and the client-side validator always rejects a candidate
whose amount is 0 (it can never reach the accepted sequence of a batch
result); the reported message is Invalid amount: 0. Must be a positive
number exactly when the type check passes, and the type error otherwise
(first failure wins). -/
theorem zero_amount_candidate_always_rejected (env : JsEnv) (cell : JValue)
    (t : ExcelTransaction) (i : Nat)
    (hcell : parseFloatJV env cell = .nan) (h : t.amount = .num 0) :
    jsOrZero (parseFloatJV env cell) = 0 ∧
    validateTransaction env t i ≠ none ∧
    ((t.type = "income" ∨ t.type = "expense") →
      validateTransaction env t i = some "Invalid amount: 0. Must be a positive number") := by
  have hmsg : (t.type = "income" ∨ t.type = "expense") →
      validateTransaction env t i = some "Invalid amount: 0. Must be a positive number" := by
    intro h1
    have hb : t.amount = .nan ∨ t.amount.le 0 = true := Or.inr (by rw [h]; decide)
    unfold validateTransaction
    rw [if_neg (not_not_intro h1), if_pos hb, h]
    rfl
  refine ⟨by rw [hcell]; rfl, ?_, hmsg⟩
  intro hc
  by_cases h1 : t.type = "income" ∨ t.type = "expense"
  · rw [hmsg h1] at hc
    exact Option.noConfusion hc
  · unfold validateTransaction at hc
    rw [if_pos h1] at hc
    exact Option.noConfusion hc

/-- Witness for the amended C10 at the candidate of `rowC10`. -/
theorem zero_amount_candidate_always_rejected_witness :
    jsOrZero (parseFloatJV envC (.jstr "abc")) = 0 ∧
    validateTransaction envC candC10 2 ≠ none ∧
    ((candC10.type = "income" ∨ candC10.type = "expense") →
      validateTransaction envC candC10 2 =
        some "Invalid amount: 0. Must be a positive number") :=
  zero_amount_candidate_always_rejected envC (.jstr "abc") candC10 2 rfl rfl

end ReckonSnap
